import Mathlib

/-!
Shallow embedding of `homework.py` (a poll-transform-notify Telegram bot).

Conventions of the embedding:
* JSON values are modelled by `JVal`; JSON numbers are integers here, which
  covers every value the program manipulates (timestamps, status codes).
* Python exceptions become the `PyErr` sum; raising is modelled by
  `Except PyErr`.  The diagnostic text of each error reproduces the f-strings
  of the source, including the whitespace that backslash line continuations
  leave inside the literals (16 spaces).
* `os.getenv` results are `Option String`; Python truthiness of a token is
  `pyTruthy`.
* External effects (the HTTP request, `bot.send_message`, `time.time()`)
  are supplied by the caller as explicit data (`HttpOutcome`, `BotSend`, `now`).
* Logging is tracked where a claim mentions it (`send_message`,
  `check_tokens`); other log lines are pure output and are not modelled.
-/

/-- Single quote character, built numerically so the source text stays free of
quote characters. -/
def sglq : String := String.mk [Char.ofNat 39]

/-- JSON value, as decoded by `response.json()`. -/
inductive JVal where
  | jnull
  | jbool (b : Bool)
  | jnum (n : Int)
  | jstr (s : String)
  | jlist (xs : List JVal)
  | jobj (kvs : List (String × JVal))
deriving Repr

/-- Lookup in a JSON object, mirroring Python dict indexing (keys are unique
in a decoded JSON object; first match is taken). -/
def dictLookup (kvs : List (String × JVal)) (k : String) : Option JVal :=
  match kvs with
  | [] => none
  | (k1, v) :: rest => if k1 = k then some v else dictLookup rest k

/-- Python `d.get(k)`: `None` when the key is absent. -/
def pyGet (kvs : List (String × JVal)) (k : String) : JVal :=
  (dictLookup kvs k).getD .jnull

/-- Python `d.get(k, default)` on a JSON value known to be an object; on a
non-object the source never reaches this operation. -/
def pyDictGetD (v : JVal) (k : String) (d : JVal) : JVal :=
  match v with
  | .jobj kvs => (dictLookup kvs k).getD d
  | _ => d

/-- Python `type(x)` rendered as in an f-string: the class-name form. -/
def pyType (v : JVal) : String :=
  let name :=
    match v with
    | .jnull => "NoneType"
    | .jbool _ => "bool"
    | .jnum _ => "int"
    | .jstr _ => "str"
    | .jlist _ => "list"
    | .jobj _ => "dict"
  "<class " ++ sglq ++ name ++ sglq ++ ">"

mutual
/-- Python `repr` of a decoded JSON value (string escaping inside reprs is not
modelled; no claim depends on it). -/
def pyRepr : JVal → String
  | .jnull => "None"
  | .jbool true => "True"
  | .jbool false => "False"
  | .jnum n => toString n
  | .jstr s => sglq ++ s ++ sglq
  | .jlist xs => "[" ++ pyReprList xs ++ "]"
  | .jobj kvs => "\x7b" ++ pyReprObj kvs ++ "\x7d"

/-- Comma-separated reprs of list elements. -/
def pyReprList : List JVal → String
  | [] => ""
  | [x] => pyRepr x
  | x :: xs => pyRepr x ++ ", " ++ pyReprList xs

/-- Comma-separated reprs of object entries. -/
def pyReprObj : List (String × JVal) → String
  | [] => ""
  | [(k, v)] => sglq ++ k ++ sglq ++ ": " ++ pyRepr v
  | (k, v) :: kvs => sglq ++ k ++ sglq ++ ": " ++ pyRepr v ++ ", " ++ pyReprObj kvs
end

/-- Python `str(x)` as used inside an f-string. -/
def pyStr : JVal → String
  | .jnull => "None"
  | .jbool true => "True"
  | .jbool false => "False"
  | .jnum n => toString n
  | .jstr s => s
  | .jlist xs => "[" ++ pyReprList xs ++ "]"
  | .jobj kvs => "\x7b" ++ pyReprObj kvs ++ "\x7d"

/-- Exceptions raised by the program, tagged by Python exception class, with
the message the source attaches. -/
inductive PyErr where
  | typeError (msg : String)
  | keyError (msg : String)
  | valueError (msg : String)
  | connectionError (msg : String)
  | requestException (msg : String)
  | apiException (msg : String)
deriving Repr, DecidableEq

/-- Python `str(error)` as interpolated into an f-string.  A `KeyError`
prints the repr of its argument, hence the surrounding quotes. -/
def errStr : PyErr → String
  | .typeError m => m
  | .keyError m => sglq ++ m ++ sglq
  | .valueError m => m
  | .connectionError m => m
  | .requestException m => m
  | .apiException m => m

/-- Log levels used by the program. -/
inductive LogLevel where
  | debug
  | error
  | critical
deriving Repr, DecidableEq

/-- One emitted log line: level and message. -/
structure LogEntry where
  level : LogLevel
  msg : String
deriving Repr, DecidableEq

/-- Whitespace contributed by a backslash line continuation inside a string
literal of the source (16 spaces of indentation). -/
def contSpaces : String := "                "

/-- Fixed verdict table `HOMEWORK_VERDICTS` of the source. -/
def HOMEWORK_VERDICTS : List (String × String) :=
  [("approved", "Работа проверена: ревьюеру всё понравилось. Ура!"),
   ("reviewing", "Работа взята на проверку ревьюером."),
   ("rejected", "Работа проверена: у ревьюера есть замечания.")]

/-- Lookup in the verdict table. -/
def verdictLookup (k : String) : Option String :=
  (HOMEWORK_VERDICTS.find? (fun p => p.1 = k)).map (fun p => p.2)

/-- Fixed retry period `RETRY_PERIOD` of the source (seconds slept between
cycles). -/
def RETRY_PERIOD : Nat := 600

/-- Translation of `parse_status(homework)`.  The argument in the source is
`homeworks[0]`, always a dict in the JSON responses the claims quantify over;
on a non-dict Python raises a type-dependent exception at the first membership
test, which we collapse to a `typeError` (no claim depends on its identity). -/
def parse_status (homework : JVal) : Except PyErr String :=
  match homework with
  | .jobj kvs =>
    if (dictLookup kvs "homework_name").isNone then
      .error (.valueError "Отсутствует домашняя работа.")
    else
      let homework_name := pyGet kvs "homework_name"
      let homework_status := pyGet kvs "status"
      match homework_status with
      | .jnull => .error (.valueError "Отсутствует статус домашней работы.")
      | .jstr s =>
        match verdictLookup s with
        | some verdict =>
          .ok ("Изменился статус проверки работы \"" ++ pyStr homework_name
            ++ "\". " ++ verdict)
        | none => .error (.valueError ("Недокументированный статус: " ++ s))
      | .jlist _ =>
        .error (.typeError "unhashable type: list")
      | .jobj _ =>
        .error (.typeError "unhashable type: dict")
      | other =>
        .error (.valueError ("Недокументированный статус: " ++ pyStr other))
  | other => .error (.typeError ("argument lookup unsupported on " ++ pyType other))

/-- Translation of `check_response(response)`. -/
def check_response (response : JVal) : Except PyErr (List JVal) :=
  match response with
  | .jobj kvs =>
    match dictLookup kvs "homeworks" with
    | none => .error (.keyError "Ответ API должен содержать ключ \"homeworks\".")
    | some v =>
      match v with
      | .jlist xs => .ok xs
      | other =>
        .error (.typeError
          ("Данные под ключом \"homeworks\" должны быть списком."
            ++ contSpaces ++ "Получен тип: " ++ pyType other))
  | other =>
    .error (.typeError ("Ответ API должен быть словарем. Получен тип: "
      ++ pyType other))

/-- Outcome of the single `requests.get` call of one cycle: either a
network-level failure (`requests.exceptions.RequestException`, carrying its
`str`), or a completed HTTP response with a status code and a JSON body. -/
inductive HttpOutcome where
  | netError (msg : String)
  | response (status : Nat) (body : JVal)

/-- Text of the `requests.HTTPError` raised by `raise_for_status` for a 4xx or
5xx status (requests also includes the reason phrase and URL; only the status
code matters to any claim). -/
def httpErrorText (status : Nat) : String :=
  toString status ++ " Error for url"

/-- Translation of `get_api_answer(timestamp)`.  The HTTP exchange itself is
the supplied `outcome`; `raise_for_status` raises for 4xx and 5xx, the raise
is caught and re-raised as `ConnectionError`, and a remaining non-200 status is
also turned into `ConnectionError`. -/
def get_api_answer (outcome : HttpOutcome) : Except PyErr JVal :=
  match outcome with
  | .netError msg => .error (.connectionError ("Ошибка API: " ++ msg))
  | .response status body =>
    if 400 ≤ status ∧ status < 600 then
      .error (.connectionError ("Ошибка API: " ++ httpErrorText status))
    else if status ≠ 200 then
      .error (.connectionError ("Ошибка API: код " ++ toString status))
    else
      .ok body

/-- Behaviour of `bot.send_message(chat_id, text)` for each message text:
success, or the exception it raises. -/
def BotSend := String → Except PyErr Unit

/-- Membership in the `except (requests.RequestException, ApiException)`
clause of `send_message`. -/
def sendCatches : PyErr → Bool
  | .requestException _ => true
  | .apiException _ => true
  | _ => false

/-- Translation of `send_message(bot, message)`: logs the attempt, invokes the
bot once, logs success, and on a caught delivery failure logs it and re-raises
(the bare `raise` of the source). -/
def send_message (bot : BotSend) (message : String) :
    List LogEntry × Except PyErr Unit :=
  let startLog : LogEntry := ⟨.debug, "Начинаю отправку сообщения: " ++ message⟩
  match bot message with
  | .ok _ =>
    ([startLog, ⟨.debug, "Бот отправил сообщение: " ++ message⟩], .ok ())
  | .error e =>
    if sendCatches e then
      ([startLog,
        ⟨.error, "Сбой при отправке сообщения в Telegram: " ++ errStr e⟩],
       .error e)
    else
      ([startLog], .error e)

/-- Environment of the process: the three `os.getenv` results. -/
structure Env where
  practicumToken : Option String
  telegramToken : Option String
  telegramChatId : Option String

/-- Python truthiness of a token value: `None` and the empty string are falsy. -/
def pyTruthy : Option String → Bool
  | none => false
  | some s => !(s = "")

/-- Value bound to a global token name, mirroring `globals()[token]`. -/
def envValue (env : Env) (name : String) : Option String :=
  if name = "PRACTICUM_TOKEN" then env.practicumToken
  else if name = "TELEGRAM_TOKEN" then env.telegramToken
  else if name = "TELEGRAM_CHAT_ID" then env.telegramChatId
  else none

/-- Names of the missing tokens, in source order. -/
def missing_tokens (env : Env) : List String :=
  ["PRACTICUM_TOKEN", "TELEGRAM_TOKEN", "TELEGRAM_CHAT_ID"].filter
    (fun token => !pyTruthy (envValue env token))

/-- Translation of `check_tokens()`: on missing tokens, log at critical level
and `sys.exit(1)` (modelled as `Except Nat`, the error being the exit code). -/
def check_tokens (env : Env) : List LogEntry × Except Nat Unit :=
  let missing := missing_tokens env
  if missing.isEmpty then
    ([], .ok ())
  else
    ([⟨.critical,
       "Отсутствуют обязательные переменные окружения:" ++ contSpaces
         ++ String.intercalate ", " missing⟩],
     .error 1)

/-- Mutable state of `main` carried between cycles: the poll cursor
`timestamp` (the value stored by line 143, an arbitrary JSON value in general
since `api_answer.get` is unvalidated; initialised to `int(time.time())`),
and the two dedup strings. -/
structure BotState where
  timestamp : JVal
  last_message : String
  last_error_message : String

/-- External inputs consumed by one cycle of the loop: the outcome of the
single `requests.get`, the behaviour of `bot.send_message` per message text,
and the value of `int(time.time())` during the cycle. -/
structure World where
  apiOutcome : HttpOutcome
  bot : BotSend
  now : Int

/-- Translation of the `try` block of one loop iteration (lines 130-143):
returns the status-message texts with which the bot was invoked, and either
the updated state or the exception escaping the block.  `last_message` is
assigned only after `send_message` returns, and the cursor assignment of line
143 runs only when nothing before it raised. -/
def tryBody (w : World) (s : BotState) :
    List String × Except PyErr BotState :=
  match get_api_answer w.apiOutcome with
  | .error e => ([], .error e)
  | .ok api_answer =>
    match check_response api_answer with
    | .error e => ([], .error e)
    | .ok homeworks =>
      let newTs := pyDictGetD api_answer "current_date" (.jnum w.now)
      match homeworks with
      | [] => ([], .ok { s with timestamp := newTs })
      | homework :: _ =>
        match parse_status homework with
        | .error e => ([], .error e)
        | .ok message =>
          if message ≠ s.last_message then
            match (send_message w.bot message).2 with
            | .error e => ([message], .error e)
            | .ok _ =>
              ([message],
               .ok { s with last_message := message, timestamp := newTs })
          else
            ([], .ok { s with timestamp := newTs })

/-- Observable outcome of one loop iteration.  `result` is the state passed to
the next iteration, or — when the `except` handler itself raised — the
exception that escapes the `while` loop after the `finally` sleep, killing
`main`.  `statusSends` and `errorSends` list the texts with which
`send_message` was invoked at line 138 and line 149 respectively; `caught` is
the diagnostic string built by the handler when it ran. -/
structure CycleOutcome where
  result : Except PyErr BotState
  statusSends : List String
  errorSends : List String
  caught : Option String

/-- Diagnostic string built by the `except` handler of `main` (line 146). -/
def diagMsg (e : PyErr) : String :=
  "Сбой в работе программы: " ++ errStr e

/-- Translation of one full iteration of the `while True` loop of `main`:
the `try` body, then the `except Exception` handler with its error-message
dedup (lines 145-150; the `message` local of the handler is `diagMsg e`).
The `finally: time.sleep(RETRY_PERIOD)` suspends but changes no state. -/
def mainStep (w : World) (s : BotState) : CycleOutcome :=
  match tryBody w s with
  | (sends, .ok s1) =>
    { result := .ok s1, statusSends := sends, errorSends := [], caught := none }
  | (sends, .error e) =>
    let message := diagMsg e
    if message ≠ s.last_error_message then
      match (send_message w.bot message).2 with
      | .ok _ =>
        { result := .ok { s with last_error_message := message },
          statusSends := sends, errorSends := [message],
          caught := some message }
      | .error e2 =>
        { result := .error e2, statusSends := sends, errorSends := [message],
          caught := some message }
    else
      { result := .ok s, statusSends := sends, errorSends := [],
        caught := some message }

/-- How `main` starts: either the process exits in `check_tokens` (with the
critical log and the exit code), or the loop is entered with the initial
state of lines 125-127. -/
inductive StartResult where
  | exited (logs : List LogEntry) (code : Nat)
  | looping (s : BotState)

/-- Translation of the startup part of `main` (lines 122-127): `check_tokens`
runs before the bot object is created, before the loop, and before any HTTP
request (no `World` is consumed on the exit path). -/
def mainStart (env : Env) (now0 : Int) : StartResult :=
  match check_tokens env with
  | (logs, .error code) => .exited logs code
  | (_, .ok _) => .looping ⟨.jnum now0, "", ""⟩

/-- Characterisation of the verdict table: a status key is found exactly when
it is one of the three known verdict keys. -/
theorem verdictLookup_isSome_iff (s : String) :
    (verdictLookup s).isSome = true ↔
      (s = "approved" ∨ s = "reviewing" ∨ s = "rejected") := by
  by_cases h1 : s = "approved" <;> by_cases h2 : s = "reviewing" <;>
    by_cases h3 : s = "rejected" <;>
    simp [verdictLookup, HOMEWORK_VERDICTS, List.find?, h1, h2, h3, eq_comm]

/-- C1: `parse_status` fails on a homework record exactly when the record
lacks `homework_name`, lacks `status`, or its `status` is not one of the three
known verdict keys; on a record having both keys and a known status it returns
exactly the fixed template with the name and the table verdict substituted. -/
theorem C1_parse_status_correct (kvs : List (String × JVal)) :
    ((∃ e, parse_status (JVal.jobj kvs) = Except.error e) ↔
      (dictLookup kvs "homework_name" = none ∨
       dictLookup kvs "status" = none ∨
       ¬ ∃ s, dictLookup kvs "status" = some (JVal.jstr s) ∧
          (s = "approved" ∨ s = "reviewing" ∨ s = "rejected"))) ∧
    (∀ name s verdict,
      dictLookup kvs "homework_name" = some name →
      dictLookup kvs "status" = some (JVal.jstr s) →
      verdictLookup s = some verdict →
      parse_status (JVal.jobj kvs) =
        Except.ok ("Изменился статус проверки работы \"" ++ pyStr name
          ++ "\". " ++ verdict)) := by
  constructor
  · cases hname : dictLookup kvs "homework_name" with
    | none => simp [parse_status, hname]
    | some nameVal =>
      cases hstat : dictLookup kvs "status" with
      | none => simp [parse_status, hname, hstat, pyGet]
      | some sv =>
        cases sv with
        | jstr s =>
          cases hverd : verdictLookup s with
          | none =>
            have hmem : ¬ (s = "approved" ∨ s = "reviewing" ∨ s = "rejected") := by
              rw [← verdictLookup_isSome_iff]
              simp [hverd]
            simp [parse_status, hname, hstat, pyGet, hverd, hmem]
          | some verdict =>
            have hmem : s = "approved" ∨ s = "reviewing" ∨ s = "rejected" := by
              rw [← verdictLookup_isSome_iff]
              simp [hverd]
            simp [parse_status, hname, hstat, pyGet, hverd, hmem]
        | jnull => simp [parse_status, hname, hstat, pyGet]
        | jbool b => simp [parse_status, hname, hstat, pyGet]
        | jnum n => simp [parse_status, hname, hstat, pyGet]
        | jlist xs => simp [parse_status, hname, hstat, pyGet]
        | jobj kvs2 => simp [parse_status, hname, hstat, pyGet]
  · intro name s verdict hn hs hv
    simp [parse_status, hn, hs, pyGet, hv]

/-- C1 witness: the worked example of the claim, a record named `proj1` with
status `approved`. -/
theorem C1_parse_status_correct_witness :
    parse_status (JVal.jobj
      [("homework_name", JVal.jstr "proj1"), ("status", JVal.jstr "approved")]) =
      Except.ok ("Изменился статус проверки работы \"proj1\". "
        ++ "Работа проверена: ревьюеру всё понравилось. Ура!") :=
  (C1_parse_status_correct
      [("homework_name", JVal.jstr "proj1"), ("status", JVal.jstr "approved")]).2
    (JVal.jstr "proj1") "approved"
    "Работа проверена: ревьюеру всё понравилось. Ура!" rfl rfl rfl

/-- C2: `check_response` fails with the dict type-mismatch error on a
non-mapping, with the missing-key error when `homeworks` is absent, with the
list type-mismatch error when the value under `homeworks` is not a list, and
these three failures are pairwise distinct; on a mapping whose `homeworks`
value is a list it returns that list unchanged, also when empty. -/
theorem C2_check_response_correct :
    (∀ v : JVal, (∀ kvs, v ≠ JVal.jobj kvs) →
      check_response v = Except.error (.typeError
        ("Ответ API должен быть словарем. Получен тип: " ++ pyType v))) ∧
    (∀ kvs, dictLookup kvs "homeworks" = none →
      check_response (JVal.jobj kvs) = Except.error (.keyError
        "Ответ API должен содержать ключ \"homeworks\".")) ∧
    (∀ kvs w, dictLookup kvs "homeworks" = some w → (∀ xs, w ≠ JVal.jlist xs) →
      check_response (JVal.jobj kvs) = Except.error (.typeError
        ("Данные под ключом \"homeworks\" должны быть списком." ++ contSpaces
          ++ "Получен тип: " ++ pyType w))) ∧
    (∀ kvs xs, dictLookup kvs "homeworks" = some (JVal.jlist xs) →
      check_response (JVal.jobj kvs) = Except.ok xs) ∧
    (∀ (v1 : JVal) (kvs2 kvs3 : List (String × JVal)) (w3 : JVal),
      (∀ kvs, v1 ≠ JVal.jobj kvs) →
      dictLookup kvs2 "homeworks" = none →
      dictLookup kvs3 "homeworks" = some w3 → (∀ xs, w3 ≠ JVal.jlist xs) →
      check_response v1 ≠ check_response (JVal.jobj kvs2) ∧
      check_response (JVal.jobj kvs2) ≠ check_response (JVal.jobj kvs3) ∧
      check_response v1 ≠ check_response (JVal.jobj kvs3)) := by
  have hnotdict : ∀ v : JVal, (∀ kvs, v ≠ JVal.jobj kvs) →
      check_response v = Except.error (.typeError
        ("Ответ API должен быть словарем. Получен тип: " ++ pyType v)) := by
    intro v hv
    cases v <;> first | exact absurd rfl (hv _) | rfl
  have hnokey : ∀ kvs, dictLookup kvs "homeworks" = none →
      check_response (JVal.jobj kvs) = Except.error (.keyError
        "Ответ API должен содержать ключ \"homeworks\".") := by
    intro kvs h
    simp [check_response, h]
  have hnotlist : ∀ kvs w, dictLookup kvs "homeworks" = some w →
      (∀ xs, w ≠ JVal.jlist xs) →
      check_response (JVal.jobj kvs) = Except.error (.typeError
        ("Данные под ключом \"homeworks\" должны быть списком." ++ contSpaces
          ++ "Получен тип: " ++ pyType w)) := by
    intro kvs w hw hnl
    cases w <;> first | exact absurd rfl (hnl _) | simp [check_response, hw]
  refine ⟨hnotdict, hnokey, hnotlist, ?_, ?_⟩
  · intro kvs xs h
    simp [check_response, h]
  · intro v1 kvs2 kvs3 w3 hnd hk hw hnl
    rw [hnotdict v1 hnd, hnokey kvs2 hk, hnotlist kvs3 w3 hw hnl]
    refine ⟨?_, ?_, ?_⟩ <;> cases v1 <;> cases w3 <;>
      simp only [ne_eq, Except.error.injEq, pyType] <;> decide

/-- C2 witness: concrete inputs exercising each branch — a number, an empty
object, an object whose `homeworks` is a string, and an object whose
`homeworks` is the empty list. -/
theorem C2_check_response_correct_witness :
    check_response (JVal.jnum 5) = Except.error (.typeError
      ("Ответ API должен быть словарем. Получен тип: " ++ pyType (JVal.jnum 5))) ∧
    check_response (JVal.jobj []) = Except.error (.keyError
      "Ответ API должен содержать ключ \"homeworks\".") ∧
    check_response (JVal.jobj [("homeworks", JVal.jstr "x")]) =
      Except.error (.typeError
        ("Данные под ключом \"homeworks\" должны быть списком." ++ contSpaces
          ++ "Получен тип: " ++ pyType (JVal.jstr "x"))) ∧
    check_response (JVal.jobj [("homeworks", JVal.jlist [])]) = Except.ok [] :=
  ⟨C2_check_response_correct.1 (JVal.jnum 5) (by intro kvs h; cases h),
   C2_check_response_correct.2.1 [] rfl,
   C2_check_response_correct.2.2.1 [("homeworks", JVal.jstr "x")]
     (JVal.jstr "x") rfl (by intro xs h; cases h),
   C2_check_response_correct.2.2.2.1 [("homeworks", JVal.jlist [])] [] rfl⟩

/-- C9: `get_api_answer` succeeds exactly on HTTP 200, returning the parsed
body as-is; every failure — network-level or non-200 status — is the single
`ConnectionError` kind carrying an `Ошибка API` message with the cause. -/
theorem C9_get_api_answer_correct :
    (∀ status body, get_api_answer (HttpOutcome.response status body) =
        Except.ok body ↔ status = 200) ∧
    (∀ outcome e, get_api_answer outcome = Except.error e →
      ∃ m, e = PyErr.connectionError m) ∧
    (∀ msg, get_api_answer (HttpOutcome.netError msg) =
      Except.error (.connectionError ("Ошибка API: " ++ msg))) := by
  refine ⟨?_, ?_, ?_⟩
  · intro status body
    by_cases h4 : 400 ≤ status ∧ status < 600
    · have h2 : status ≠ 200 := by omega
      simp [get_api_answer, h4, h2]
    · by_cases h2 : status = 200
      · simp [get_api_answer, h4, h2]
      · simp [get_api_answer, h4, h2]
  · intro outcome e he
    cases outcome with
    | netError m =>
      simp [get_api_answer] at he
      exact ⟨_, he.symm⟩
    | response status body =>
      by_cases h4 : 400 ≤ status ∧ status < 600
      · simp [get_api_answer, h4] at he
        exact ⟨_, he.symm⟩
      · by_cases h2 : status = 200
        · simp [get_api_answer, h4, h2] at he
        · simp [get_api_answer, h4, h2] at he
          exact ⟨_, he.symm⟩
  · intro msg
    rfl

/-- C9 witness: a 200 response returns its body; a 503 response and a network
error yield the `ConnectionError` kind. -/
theorem C9_get_api_answer_correct_witness :
    get_api_answer (HttpOutcome.response 200 (JVal.jobj [])) =
      Except.ok (JVal.jobj []) ∧
    (∃ m, PyErr.connectionError ("Ошибка API: " ++ httpErrorText 503) =
      PyErr.connectionError m) ∧
    get_api_answer (HttpOutcome.netError "boom") =
      Except.error (.connectionError ("Ошибка API: " ++ "boom")) :=
  ⟨(C9_get_api_answer_correct.1 200 (JVal.jobj [])).mpr rfl,
   C9_get_api_answer_correct.2.1 (HttpOutcome.response 503 (JVal.jobj []))
     (PyErr.connectionError ("Ошибка API: " ++ httpErrorText 503)) rfl,
   C9_get_api_answer_correct.2.2 "boom"⟩

/-- Auxiliary: the exception flow of `send_message` is exactly that of the
single bot invocation — success passes through, and both the caught-and-
re-raised failures and the uncaught ones propagate. -/
theorem send_message_snd (bot : BotSend) (m : String) :
    (send_message bot m).2 = bot m := by
  unfold send_message
  cases h : bot m with
  | ok u => cases u; simp
  | error e => by_cases hc : sendCatches e <;> simp [hc]

/-- Auxiliary: shape of `mainStep` when the `try` body completes. -/
theorem mainStep_ok_case (w : World) (s : BotState) (sends : List String)
    (s1 : BotState) (h : tryBody w s = (sends, Except.ok s1)) :
    mainStep w s = ⟨Except.ok s1, sends, [], none⟩ := by
  unfold mainStep
  rw [h]

/-- Auxiliary: shape of `mainStep` when the `try` body raises and the
diagnostic equals the remembered error message (duplicate suppressed). -/
theorem mainStep_err_dup (w : World) (s : BotState) (sends : List String)
    (e : PyErr) (h : tryBody w s = (sends, Except.error e))
    (hd : diagMsg e = s.last_error_message) :
    mainStep w s = ⟨Except.ok s, sends, [], some (diagMsg e)⟩ := by
  unfold mainStep
  rw [h]
  simp [hd]

/-- Auxiliary: shape of `mainStep` when the `try` body raises, the diagnostic
is new, and the error notification is delivered. -/
theorem mainStep_err_send_ok (w : World) (s : BotState) (sends : List String)
    (e : PyErr) (h : tryBody w s = (sends, Except.error e))
    (hd : diagMsg e ≠ s.last_error_message)
    (hs : w.bot (diagMsg e) = Except.ok ()) :
    mainStep w s = ⟨Except.ok { s with last_error_message := diagMsg e },
      sends, [diagMsg e], some (diagMsg e)⟩ := by
  unfold mainStep
  rw [h]
  simp only [send_message_snd, hs, hd]
  simp [hd]

/-- Auxiliary: shape of `mainStep` when the `try` body raises, the diagnostic
is new, and the error notification itself raises — the exception escapes the
iteration. -/
theorem mainStep_err_send_fail (w : World) (s : BotState) (sends : List String)
    (e e2 : PyErr) (h : tryBody w s = (sends, Except.error e))
    (hd : diagMsg e ≠ s.last_error_message)
    (hs : w.bot (diagMsg e) = Except.error e2) :
    mainStep w s = ⟨Except.error e2, sends, [diagMsg e], some (diagMsg e)⟩ := by
  unfold mainStep
  rw [h]
  simp only [send_message_snd, hs, hd]
  simp [hd]

/-- Auxiliary: a completed try block got a parsed API answer, set the cursor
from it (server `current_date` or local now), and left the error-dedup string
untouched. -/
theorem tryBody_ok_cases (w : World) (s s1 : BotState)
    (hok : (tryBody w s).2 = Except.ok s1) :
    ∃ a, get_api_answer w.apiOutcome = Except.ok a ∧
      s1.timestamp = pyDictGetD a "current_date" (JVal.jnum w.now) ∧
      s1.last_error_message = s.last_error_message := by
  unfold tryBody at hok
  cases hga : get_api_answer w.apiOutcome with
  | error e => rw [hga] at hok; simp at hok
  | ok a =>
    rw [hga] at hok
    dsimp only at hok
    refine ⟨a, rfl, ?_⟩
    cases hcr : check_response a with
    | error e => rw [hcr] at hok; simp at hok
    | ok homeworks =>
      rw [hcr] at hok
      dsimp only at hok
      cases homeworks with
      | nil =>
        simp at hok
        subst hok
        exact ⟨rfl, rfl⟩
      | cons hw rest =>
        dsimp only at hok
        cases hps : parse_status hw with
        | error e => rw [hps] at hok; simp at hok
        | ok message =>
          rw [hps] at hok
          dsimp only at hok
          by_cases hne : message = s.last_message
          · simp [hne] at hok
            subst hok
            exact ⟨rfl, rfl⟩
          · cases hsm : (send_message w.bot message).2 with
            | error e => rw [hsm] at hok; simp [hne] at hok
            | ok u =>
              rw [hsm] at hok
              simp [hne] at hok
              subst hok
              exact ⟨rfl, rfl⟩

/-- Auxiliary: a cycle whose head message equals the remembered last sent
message invokes the Notifier with no status message and completes. -/
theorem tryBody_msg_dup (w : World) (s : BotState) (a hw : JVal)
    (rest : List JVal) (m : String)
    (hga : get_api_answer w.apiOutcome = Except.ok a)
    (hcr : check_response a = Except.ok (hw :: rest))
    (hps : parse_status hw = Except.ok m)
    (hm : m = s.last_message) :
    tryBody w s = ([], Except.ok
      { s with timestamp := pyDictGetD a "current_date" (JVal.jnum w.now) }) := by
  unfold tryBody
  rw [hga]
  dsimp only
  rw [hcr]
  dsimp only
  rw [hps]
  dsimp only
  simp [hm]

/-- Auxiliary: a cycle with a new head message whose delivery succeeds sends
it once and remembers it. -/
theorem tryBody_msg_send_ok (w : World) (s : BotState) (a hw : JVal)
    (rest : List JVal) (m : String)
    (hga : get_api_answer w.apiOutcome = Except.ok a)
    (hcr : check_response a = Except.ok (hw :: rest))
    (hps : parse_status hw = Except.ok m)
    (hm : m ≠ s.last_message) (hb : w.bot m = Except.ok ()) :
    tryBody w s = ([m], Except.ok
      { s with last_message := m,
               timestamp := pyDictGetD a "current_date" (JVal.jnum w.now) }) := by
  unfold tryBody
  rw [hga]
  dsimp only
  rw [hcr]
  dsimp only
  rw [hps]
  dsimp only
  simp [hm, send_message_snd, hb]

/-- Auxiliary: a cycle with a new head message whose delivery raises invokes
the Notifier once with it and the exception escapes the try block. -/
theorem tryBody_msg_send_fail (w : World) (s : BotState) (a hw : JVal)
    (rest : List JVal) (m : String) (e : PyErr)
    (hga : get_api_answer w.apiOutcome = Except.ok a)
    (hcr : check_response a = Except.ok (hw :: rest))
    (hps : parse_status hw = Except.ok m)
    (hm : m ≠ s.last_message) (hb : w.bot m = Except.error e) :
    tryBody w s = ([m], Except.error e) := by
  unfold tryBody
  rw [hga]
  dsimp only
  rw [hcr]
  dsimp only
  rw [hps]
  dsimp only
  simp [hm, send_message_snd, hb]

/-- Auxiliary: the status-send site of a cycle is exercised at most once. -/
theorem tryBody_sends_len (w : World) (s : BotState) :
    (tryBody w s).1.length ≤ 1 := by
  unfold tryBody
  cases hga : get_api_answer w.apiOutcome with
  | error e => simp
  | ok a =>
    dsimp only
    cases hcr : check_response a with
    | error e => simp
    | ok homeworks =>
      dsimp only
      cases homeworks with
      | nil => simp
      | cons hw rest =>
        dsimp only
        cases hps : parse_status hw with
        | error e => simp
        | ok message =>
          dsimp only
          by_cases hne : message = s.last_message
          · simp [hne]
          · cases hsm : (send_message w.bot message).2 <;> simp [hne, hsm]

/-- Auxiliary: inversion of `mainStep` when the handler ran. -/
theorem mainStep_caught_some (w : World) (s : BotState) (d : String)
    (h : (mainStep w s).caught = some d) :
    ∃ sends e, tryBody w s = (sends, Except.error e) ∧ diagMsg e = d := by
  rcases htb : tryBody w s with ⟨sends, r⟩
  cases r with
  | ok s1 =>
    rw [mainStep_ok_case w s sends s1 htb] at h
    cases h
  | error e =>
    refine ⟨sends, e, rfl, ?_⟩
    by_cases hd : diagMsg e = s.last_error_message
    · rw [mainStep_err_dup w s sends e htb hd] at h
      simpa using h
    · cases hs : w.bot (diagMsg e) with
      | ok u =>
        cases u
        rw [mainStep_err_send_ok w s sends e htb hd hs] at h
        simpa using h
      | error e2 =>
        rw [mainStep_err_send_fail w s sends e e2 htb hd hs] at h
        simpa using h

/-- Auxiliary: inversion of `mainStep` when the handler did not run: the try
block completed and its state is passed on unchanged. -/
theorem mainStep_caught_none (w : World) (s : BotState)
    (h : (mainStep w s).caught = none) :
    ∃ s1, tryBody w s = ((mainStep w s).statusSends, Except.ok s1) ∧
      (mainStep w s).result = Except.ok s1 := by
  rcases htb : tryBody w s with ⟨sends, r⟩
  cases r with
  | ok s1 =>
    rw [mainStep_ok_case w s sends s1 htb]
    exact ⟨s1, rfl, rfl⟩
  | error e =>
    exfalso
    by_cases hd : diagMsg e = s.last_error_message
    · rw [mainStep_err_dup w s sends e htb hd] at h
      cases h
    · cases hs : w.bot (diagMsg e) with
      | ok u =>
        cases u
        rw [mainStep_err_send_ok w s sends e htb hd hs] at h
        cases h
      | error e2 =>
        rw [mainStep_err_send_fail w s sends e e2 htb hd hs] at h
        cases h

/-- Example homework record used by concrete cycles. -/
def hwRecord : JVal :=
  JVal.jobj [("homework_name", JVal.jstr "proj1"), ("status", JVal.jstr "approved")]

/-- Example API body: one record and a server cursor. -/
def okBody : JVal :=
  JVal.jobj [("homeworks", JVal.jlist [hwRecord]),
             ("current_date", JVal.jnum 1700000100)]

/-- Example API body with an empty homework list and no server cursor. -/
def emptyBody : JVal := JVal.jobj [("homeworks", JVal.jlist [])]

/-- Formatted message of `hwRecord`. -/
def statusMsg : String :=
  "Изменился статус проверки работы \"proj1\". " ++
    "Работа проверена: ревьюеру всё понравилось. Ура!"

/-- A bot whose every delivery succeeds. -/
def okBot : BotSend := fun _ => Except.ok ()

/-- A bot whose every delivery raises an `ApiException`. -/
def failBot : BotSend := fun _ => Except.error (.apiException "boom")

/-- A bot failing exactly on the formatted status message of `hwRecord`. -/
def botFailStatus : BotSend := fun m =>
  if m = statusMsg then Except.error (.apiException "boom") else Except.ok ()

/-- Initial loop state of `main` at local time 0. -/
def sInit : BotState := ⟨JVal.jnum 0, "", ""⟩

/-- C10: a cycle that ends in the error handler passes the poll cursor and
the remembered last-sent message to the next cycle unchanged, whatever step of
the try block raised — including a send failure after a successful API call
and validation (the cursor assignment of line 143 and the `last_message`
assignment of line 139 are both skipped). -/
theorem C10_failure_preserves_state (w : World) (s : BotState) (e : PyErr)
    (herr : (tryBody w s).2 = Except.error e) :
    ∀ s1, (mainStep w s).result = Except.ok s1 →
      s1.timestamp = s.timestamp ∧ s1.last_message = s.last_message := by
  intro s1 h1
  rcases htb : tryBody w s with ⟨sends, r⟩
  rw [htb] at herr
  dsimp only at herr
  subst herr
  by_cases hd : diagMsg e = s.last_error_message
  · rw [mainStep_err_dup w s sends e htb hd] at h1
    dsimp only at h1
    injection h1 with hs1
    subst hs1
    exact ⟨rfl, rfl⟩
  · cases hs : w.bot (diagMsg e) with
    | error e2 =>
      rw [mainStep_err_send_fail w s sends e e2 htb hd hs] at h1
      cases h1
    | ok u =>
      cases u
      rw [mainStep_err_send_ok w s sends e htb hd hs] at h1
      dsimp only at h1
      injection h1 with hs1
      subst hs1
      exact ⟨rfl, rfl⟩

/-- C10 witness: a cycle in which the API call and validation succeed and only
the Telegram send of the status message raises; the handler delivers the
diagnostic, and the new state keeps the old cursor and last-sent message. -/
theorem C10_failure_preserves_state_witness :
    (BotState.mk (JVal.jnum 0) "" "Сбой в работе программы: boom").timestamp
        = sInit.timestamp ∧
    (BotState.mk (JVal.jnum 0) "" "Сбой в работе программы: boom").last_message
        = sInit.last_message :=
  C10_failure_preserves_state ⟨HttpOutcome.response 200 okBody, botFailStatus, 7⟩
    sInit (.apiException "boom") rfl
    (BotState.mk (JVal.jnum 0) "" "Сбой в работе программы: boom") rfl

/-- C8: after a cycle whose try block completed, the cursor is the server
`current_date` value when that key is present and the local current time
otherwise (the `api_answer.get` of line 143). -/
theorem C8_cursor_advance (w : World) (s s1 : BotState) (a : JVal)
    (ha : get_api_answer w.apiOutcome = Except.ok a)
    (hok : (tryBody w s).2 = Except.ok s1) :
    s1.timestamp = pyDictGetD a "current_date" (JVal.jnum w.now) ∧
    (∀ kvs v, a = JVal.jobj kvs → dictLookup kvs "current_date" = some v →
      s1.timestamp = v) ∧
    (∀ kvs, a = JVal.jobj kvs → dictLookup kvs "current_date" = none →
      s1.timestamp = JVal.jnum w.now) := by
  obtain ⟨a2, ha2, hts, _⟩ := tryBody_ok_cases w s s1 hok
  rw [ha] at ha2
  injection ha2 with h
  subst h
  refine ⟨hts, ?_, ?_⟩
  · intro kvs v hobj hl
    subst hobj
    rw [hts]
    simp [pyDictGetD, hl]
  · intro kvs hobj hl
    subst hobj
    rw [hts]
    simp [pyDictGetD, hl]

/-- C8 witness: with `current_date: 1700000100` in the body the next cursor is
1700000100; with an empty homework list and no `current_date` it falls back to
the local time of the cycle (here 5). -/
theorem C8_cursor_advance_witness :
    (BotState.mk (JVal.jnum 1700000100) statusMsg "").timestamp
        = JVal.jnum 1700000100 ∧
    (BotState.mk (JVal.jnum 5) "" "").timestamp = JVal.jnum 5 :=
  ⟨(C8_cursor_advance ⟨HttpOutcome.response 200 okBody, okBot, 7⟩ sInit
      (BotState.mk (JVal.jnum 1700000100) statusMsg "") okBody rfl rfl).2.1
      [("homeworks", JVal.jlist [hwRecord]), ("current_date", JVal.jnum 1700000100)]
      (JVal.jnum 1700000100) rfl rfl,
   (C8_cursor_advance ⟨HttpOutcome.response 200 emptyBody, okBot, 5⟩ sInit
      (BotState.mk (JVal.jnum 5) "" "") emptyBody rfl rfl).2.2
      [("homeworks", JVal.jlist [])] rfl rfl⟩

/-- C6: over two consecutive cycles that fail with the same diagnostic, the
error notification is attempted at most once: it is attempted only when the
diagnostic differs from the remembered last error message, and a delivered
notification updates that memory, so the second cycle stays silent. -/
theorem C6_error_dedup (s0 : BotState) (w1 w2 : World) (d : String)
    (s1 : BotState)
    (h1 : (mainStep w1 s0).caught = some d)
    (hr : (mainStep w1 s0).result = Except.ok s1)
    (h2 : (mainStep w2 s1).caught = some d) :
    ((mainStep w1 s0).errorSends ++ (mainStep w2 s1).errorSends).length ≤ 1 ∧
    ((mainStep w1 s0).errorSends ≠ [] →
      d ≠ s0.last_error_message ∧ s1.last_error_message = d) ∧
    ((mainStep w1 s0).errorSends = [] → s1 = s0) := by
  obtain ⟨sends1, e1, htb1, hd1⟩ := mainStep_caught_some w1 s0 d h1
  obtain ⟨sends2, e2, htb2, hd2⟩ := mainStep_caught_some w2 s1 d h2
  subst hd1
  by_cases hd : diagMsg e1 = s0.last_error_message
  · have hm1 := mainStep_err_dup w1 s0 sends1 e1 htb1 hd
    rw [hm1] at hr ⊢
    dsimp only at hr ⊢
    injection hr with hs1
    subst hs1
    have hdup2 : diagMsg e2 = s0.last_error_message := by rw [hd2]; exact hd
    have hm2 := mainStep_err_dup w2 s0 sends2 e2 htb2 hdup2
    rw [hm2]
    dsimp only
    refine ⟨by simp, ?_, fun _ => rfl⟩
    intro h
    exact absurd rfl h
  · cases hs : w1.bot (diagMsg e1) with
    | error e3 =>
      rw [mainStep_err_send_fail w1 s0 sends1 e1 e3 htb1 hd hs] at hr
      cases hr
    | ok u =>
      cases u
      have hm1 := mainStep_err_send_ok w1 s0 sends1 e1 htb1 hd hs
      rw [hm1] at hr ⊢
      dsimp only at hr ⊢
      injection hr with hs1
      subst hs1
      have hdup2 : diagMsg e2 =
          ({ s0 with last_error_message := diagMsg e1} : BotState).last_error_message := hd2
      have hm2 := mainStep_err_dup w2 _ sends2 e2 htb2 hdup2
      rw [hm2]
      dsimp only
      refine ⟨by simp, fun _ => ⟨hd, rfl⟩, ?_⟩
      intro h
      simp at h

/-- C6 witness: two identical failing cycles (network error, deliverable error
notification): one attempt total. -/
theorem C6_error_dedup_witness :
    ((mainStep ⟨HttpOutcome.netError "x", okBot, 0⟩ sInit).errorSends ++
      (mainStep ⟨HttpOutcome.netError "x", okBot, 0⟩
        (BotState.mk (JVal.jnum 0) "" "Сбой в работе программы: Ошибка API: x")).errorSends).length
      ≤ 1 :=
  (C6_error_dedup sInit ⟨HttpOutcome.netError "x", okBot, 0⟩
    ⟨HttpOutcome.netError "x", okBot, 0⟩ "Сбой в работе программы: Ошибка API: x"
    (BotState.mk (JVal.jnum 0) "" "Сбой в работе программы: Ошибка API: x")
    rfl rfl rfl).1

/-- C7: if any of the three required configuration values is absent or empty
(Python-falsy), `main` exits with code 1 right inside `check_tokens`, logging
one critical line built from the names of the missing variables, before the
loop — and hence before any HTTP request, since the exit path consumes no
`World`; with all three present and non-empty the check passes and the loop is
entered with the initial state. -/
theorem C7_check_tokens_fatal (env : Env) (now0 : Int) :
    (¬ (pyTruthy env.practicumToken = true ∧ pyTruthy env.telegramToken = true ∧
        pyTruthy env.telegramChatId = true) →
      missing_tokens env ≠ [] ∧
      mainStart env now0 = StartResult.exited
        [⟨.critical, "Отсутствуют обязательные переменные окружения:" ++ contSpaces
            ++ String.intercalate ", " (missing_tokens env)⟩] 1 ∧
      (pyTruthy env.practicumToken = false →
        "PRACTICUM_TOKEN" ∈ missing_tokens env) ∧
      (pyTruthy env.telegramToken = false →
        "TELEGRAM_TOKEN" ∈ missing_tokens env) ∧
      (pyTruthy env.telegramChatId = false →
        "TELEGRAM_CHAT_ID" ∈ missing_tokens env)) ∧
    ((pyTruthy env.practicumToken = true ∧ pyTruthy env.telegramToken = true ∧
        pyTruthy env.telegramChatId = true) →
      mainStart env now0 = StartResult.looping ⟨JVal.jnum now0, "", ""⟩) := by
  cases hp : pyTruthy env.practicumToken <;>
    cases ht : pyTruthy env.telegramToken <;>
      cases hc : pyTruthy env.telegramChatId <;>
        simp [missing_tokens, envValue, mainStart, check_tokens, hp, ht, hc]

/-- C7 witness: a missing API token causes exit code 1 with the critical log;
a fully configured environment enters the loop. -/
theorem C7_check_tokens_fatal_witness :
    mainStart ⟨none, some "t", some "c"⟩ 0 = StartResult.exited
      [⟨.critical, "Отсутствуют обязательные переменные окружения:" ++ contSpaces
          ++ String.intercalate ", " (missing_tokens ⟨none, some "t", some "c"⟩)⟩] 1 ∧
    mainStart ⟨some "p", some "t", some "c"⟩ 0 =
      StartResult.looping ⟨JVal.jnum 0, "", ""⟩ :=
  ⟨((C7_check_tokens_fatal ⟨none, some "t", some "c"⟩ 0).1 (by decide)).2.1,
   (C7_check_tokens_fatal ⟨some "p", some "t", some "c"⟩ 0).2 (by decide)⟩

/-- Auxiliary: the status-send invocations of a cycle are exactly those of its
try block (the handler adds only error-notification sends). -/
theorem mainStep_statusSends (w : World) (s : BotState) :
    (mainStep w s).statusSends = (tryBody w s).1 := by
  rcases htb : tryBody w s with ⟨sends, r⟩
  cases r with
  | ok s1 => rw [mainStep_ok_case w s sends s1 htb]
  | error e =>
    by_cases hd : diagMsg e = s.last_error_message
    · rw [mainStep_err_dup w s sends e htb hd]
    · cases hs : w.bot (diagMsg e) with
      | ok u =>
        cases u
        rw [mainStep_err_send_ok w s sends e htb hd hs]
      | error e2 =>
        rw [mainStep_err_send_fail w s sends e e2 htb hd hs]

/-- C3 counterexample: with a bot whose delivery raises an `ApiException`
(one of the kinds the `except` clause of `send_message` catches), the failure
IS raised further to the caller — the result is the propagated exception, not
a success: the bare `raise` of line 61 contradicts the claim. -/
theorem C3_counterexample_send_reraises :
    (send_message failBot "hi").2 = Except.error (.apiException "boom") ∧
    (send_message failBot "hi").2 ≠ Except.ok () := by
  refine ⟨rfl, fun h => ?_⟩
  rw [show (send_message failBot "hi").2 =
    Except.error (PyErr.apiException "boom") from rfl] at h
  cases h

/-- C3 amended: on a delivery failure of a caught kind the Notifier logs the
failure at error level and re-raises it to the caller (where the per-cycle
handler of `main` deals with it); a failed send is not retried within the
cycle — each send site of a cycle is invoked at most once — and no queue of
pending messages exists in the loop state. -/
theorem C3_amended_send_failure_logged_and_reraised :
    (∀ (bot : BotSend) (m : String) (e : PyErr), bot m = Except.error e →
      sendCatches e = true →
      send_message bot m =
        ([⟨.debug, "Начинаю отправку сообщения: " ++ m⟩,
          ⟨.error, "Сбой при отправке сообщения в Telegram: " ++ errStr e⟩],
         Except.error e)) ∧
    (∀ w s, (mainStep w s).statusSends.length ≤ 1 ∧
      (mainStep w s).errorSends.length ≤ 1) := by
  constructor
  · intro bot m e hb hc
    unfold send_message
    rw [hb]
    simp [hc]
  · intro w s
    rcases htb : tryBody w s with ⟨sends, r⟩
    have hlen : sends.length ≤ 1 := by
      have h := tryBody_sends_len w s
      rw [htb] at h
      exact h
    cases r with
    | ok s1 =>
      rw [mainStep_ok_case w s sends s1 htb]
      exact ⟨hlen, by simp⟩
    | error e =>
      by_cases hd : diagMsg e = s.last_error_message
      · rw [mainStep_err_dup w s sends e htb hd]
        exact ⟨hlen, by simp⟩
      · cases hs : w.bot (diagMsg e) with
        | ok u =>
          cases u
          rw [mainStep_err_send_ok w s sends e htb hd hs]
          exact ⟨hlen, by simp⟩
        | error e2 =>
          rw [mainStep_err_send_fail w s sends e e2 htb hd hs]
          exact ⟨hlen, by simp⟩

/-- C3 amended witness: a concrete failing delivery is logged and propagated;
a concrete cycle invokes each send site at most once. -/
theorem C3_amended_witness :
    send_message failBot "msg" =
      ([⟨.debug, "Начинаю отправку сообщения: " ++ "msg"⟩,
        ⟨.error, "Сбой при отправке сообщения в Telegram: "
          ++ errStr (.apiException "boom")⟩],
       Except.error (.apiException "boom")) ∧
    ((mainStep ⟨HttpOutcome.netError "x", okBot, 0⟩ sInit).statusSends.length ≤ 1 ∧
     (mainStep ⟨HttpOutcome.netError "x", okBot, 0⟩ sInit).errorSends.length ≤ 1) :=
  ⟨C3_amended_send_failure_logged_and_reraised.1 failBot "msg"
     (.apiException "boom") rfl rfl,
   C3_amended_send_failure_logged_and_reraised.2
     ⟨HttpOutcome.netError "x", okBot, 0⟩ sInit⟩

/-- C4 counterexample: a cycle whose API call fails and whose error
notification also raises — the error is caught and converted to the
diagnostic (`caught` is set), yet the loop does not proceed to the next cycle:
the exception from the handler escapes and `main` dies although configuration was
complete. -/
theorem C4_counterexample_handler_send_crash :
    (mainStep ⟨HttpOutcome.netError "x", failBot, 0⟩ sInit).caught =
      some "Сбой в работе программы: Ошибка API: x" ∧
    (mainStep ⟨HttpOutcome.netError "x", failBot, 0⟩ sInit).result =
      Except.error (.apiException "boom") := ⟨rfl, rfl⟩

/-- C4 amended: every error raised in the try block is caught at the top of
the iteration and converted to the diagnostic string; the loop proceeds to the
next cycle when the diagnostic is a suppressed duplicate or when the error
notification is delivered, but when that notification itself raises, the
exception escapes the handler and terminates the loop — so a failing error
send is fatal in addition to missing startup configuration. -/
theorem C4_amended_cycle_error_policy (w : World) (s : BotState) (e : PyErr)
    (herr : (tryBody w s).2 = Except.error e) :
    (mainStep w s).caught = some (diagMsg e) ∧
    (diagMsg e = s.last_error_message → (mainStep w s).result = Except.ok s) ∧
    (diagMsg e ≠ s.last_error_message → w.bot (diagMsg e) = Except.ok () →
      (mainStep w s).result =
        Except.ok { s with last_error_message := diagMsg e }) ∧
    (∀ e2, diagMsg e ≠ s.last_error_message →
      w.bot (diagMsg e) = Except.error e2 →
      (mainStep w s).result = Except.error e2) := by
  rcases htb : tryBody w s with ⟨sends, r⟩
  rw [htb] at herr
  dsimp only at herr
  subst herr
  refine ⟨?_, ?_, ?_, ?_⟩
  · by_cases hd : diagMsg e = s.last_error_message
    · rw [mainStep_err_dup w s sends e htb hd]
    · cases hs : w.bot (diagMsg e) with
      | ok u =>
        cases u
        rw [mainStep_err_send_ok w s sends e htb hd hs]
      | error e2 =>
        rw [mainStep_err_send_fail w s sends e e2 htb hd hs]
  · intro hd
    rw [mainStep_err_dup w s sends e htb hd]
  · intro hd hs
    rw [mainStep_err_send_ok w s sends e htb hd hs]
  · intro e2 hd hs
    rw [mainStep_err_send_fail w s sends e e2 htb hd hs]

/-- C4 amended witness: a failing API call is caught and converted; with a
deliverable notification the loop continues, with a failing one the exception
escapes. -/
theorem C4_amended_witness :
    (mainStep ⟨HttpOutcome.netError "x", okBot, 0⟩ sInit).caught =
      some (diagMsg (.connectionError ("Ошибка API: " ++ "x"))) ∧
    (mainStep ⟨HttpOutcome.netError "x", failBot, 0⟩ sInit).result =
      Except.error (.apiException "boom") :=
  ⟨(C4_amended_cycle_error_policy ⟨HttpOutcome.netError "x", okBot, 0⟩ sInit
      (.connectionError ("Ошибка API: " ++ "x")) rfl).1,
   (C4_amended_cycle_error_policy ⟨HttpOutcome.netError "x", failBot, 0⟩ sInit
      (.connectionError ("Ошибка API: " ++ "x")) rfl).2.2.2 (.apiException "boom")
      (by decide) rfl⟩

/-- Proposition: the cycle driven by `w` obtains a validated non-empty
homework list and formatting its head yields `m` (lines 131-136). -/
def cycleMessage (w : World) (m : String) : Prop :=
  ∃ a hw rest, get_api_answer w.apiOutcome = Except.ok a ∧
    check_response a = Except.ok (hw :: rest) ∧ parse_status hw = Except.ok m

/-- Auxiliary: a cycle whose formatted head message equals the remembered one
sends no status message and completes without error. -/
theorem cycle_dup_silent (w : World) (s : BotState) (m : String)
    (hc : cycleMessage w m) (hm : m = s.last_message) :
    (mainStep w s).statusSends = [] ∧ (mainStep w s).caught = none := by
  obtain ⟨a, hw, rest, hga, hcr, hps⟩ := hc
  have htb := tryBody_msg_dup w s a hw rest m hga hcr hps hm
  rw [mainStep_ok_case w s []
    { s with timestamp := pyDictGetD a "current_date" (JVal.jnum w.now) } htb]
  exact ⟨rfl, rfl⟩

/-- Auxiliary: a cycle whose formatted head message is new invokes the
Notifier with exactly that message at the status-send site. -/
theorem cycle_new_sends_once (w : World) (s : BotState) (m : String)
    (hc : cycleMessage w m) (hm : m ≠ s.last_message) :
    (mainStep w s).statusSends = [m] := by
  obtain ⟨a, hw, rest, hga, hcr, hps⟩ := hc
  rw [mainStep_statusSends]
  cases hs : w.bot m with
  | ok u =>
    cases u
    rw [tryBody_msg_send_ok w s a hw rest m hga hcr hps hm hs]
  | error e =>
    rw [tryBody_msg_send_fail w s a hw rest m e hga hcr hps hm hs]

/-- Auxiliary: when a cycle that formatted `m` completes without error, the
state it passes on remembers `m` as the last sent message (either it was just
sent, or it already was the remembered one). -/
theorem cycle_ok_last_message (w : World) (s : BotState) (m : String)
    (s1 : BotState) (hc : cycleMessage w m)
    (hnone : (mainStep w s).caught = none)
    (hres : (mainStep w s).result = Except.ok s1) :
    s1.last_message = m := by
  obtain ⟨a, hw, rest, hga, hcr, hps⟩ := hc
  obtain ⟨s1x, htbx, hresx⟩ := mainStep_caught_none w s hnone
  rw [hres] at hresx
  injection hresx with hsx
  subst hsx
  by_cases hm : m = s.last_message
  · have hd := tryBody_msg_dup w s a hw rest m hga hcr hps hm
    rw [hd] at htbx
    injection htbx with h1 h2
    injection h2 with h3
    rw [← h3]
    exact hm.symm
  · cases hs : w.bot m with
    | ok u =>
      cases u
      have hd := tryBody_msg_send_ok w s a hw rest m hga hcr hps hm hs
      rw [hd] at htbx
      injection htbx with h1 h2
      injection h2 with h3
      rw [← h3]
    | error e =>
      have hd := tryBody_msg_send_fail w s a hw rest m e hga hcr hps hm hs
      rw [hd] at htbx
      injection htbx with h1 h2
      cases h2

/-- C5 counterexample: two consecutive cycles both format `statusMsg`; the
first send raises, so `last_message` stays empty and the second cycle invokes
the Notifier with the very same message again — two status-send invocations
across two cycles producing the same formatted message. -/
theorem C5_counterexample_resend_after_failure :
    (mainStep ⟨HttpOutcome.response 200 okBody, botFailStatus, 7⟩
      sInit).statusSends = [statusMsg] ∧
    (mainStep ⟨HttpOutcome.response 200 okBody, botFailStatus, 7⟩ sInit).result
      = Except.ok (BotState.mk (JVal.jnum 0) "" "Сбой в работе программы: boom") ∧
    (mainStep ⟨HttpOutcome.response 200 okBody, okBot, 8⟩
      (BotState.mk (JVal.jnum 0) "" "Сбой в работе программы: boom")).statusSends
      = [statusMsg] := ⟨rfl, rfl, rfl⟩

/-- C5 amended: a cycle with a non-empty validated list formats only the head
record and sends the result only when it differs from the remembered last-sent
message, which is updated only on a successful send; consequently two
consecutive cycles formatting the same message invoke the Notifier with it at
most once across both — provided the first cycle completes without error (a
failed first send is re-attempted in the next cycle). -/
theorem C5_amended_head_dedup :
    (∀ w s m, cycleMessage w m →
      (m = s.last_message →
        (mainStep w s).statusSends = [] ∧ (mainStep w s).caught = none) ∧
      (m ≠ s.last_message → (mainStep w s).statusSends = [m]) ∧
      (∀ s1, (mainStep w s).caught = none →
        (mainStep w s).result = Except.ok s1 → s1.last_message = m)) ∧
    (∀ s0 w1 w2 m s1, cycleMessage w1 m → cycleMessage w2 m →
      (mainStep w1 s0).caught = none →
      (mainStep w1 s0).result = Except.ok s1 →
      ((mainStep w1 s0).statusSends ++ (mainStep w2 s1).statusSends).length ≤ 1)
    := by
  constructor
  · intro w s m hc
    exact ⟨fun hm => cycle_dup_silent w s m hc hm,
           fun hm => cycle_new_sends_once w s m hc hm,
           fun s1 hnone hres => cycle_ok_last_message w s m s1 hc hnone hres⟩
  · intro s0 w1 w2 m s1 hc1 hc2 hnone hres
    have hlast : s1.last_message = m := cycle_ok_last_message w1 s0 m s1 hc1 hnone hres
    have h2 : (mainStep w2 s1).statusSends = [] :=
      (cycle_dup_silent w2 s1 m hc2 hlast.symm).1
    by_cases hm : m = s0.last_message
    · have h1 := (cycle_dup_silent w1 s0 m hc1 hm).1
      rw [h1, h2]
      simp
    · have h1 := cycle_new_sends_once w1 s0 m hc1 hm
      rw [h1, h2]
      simp

/-- C5 amended witness: two consecutive clean cycles with the same record send
the status message exactly once. -/
theorem C5_amended_witness :
    ((mainStep ⟨HttpOutcome.response 200 okBody, okBot, 7⟩ sInit).statusSends ++
      (mainStep ⟨HttpOutcome.response 200 okBody, okBot, 7⟩
        (BotState.mk (JVal.jnum 1700000100) statusMsg "")).statusSends).length
      ≤ 1 :=
  C5_amended_head_dedup.2 sInit ⟨HttpOutcome.response 200 okBody, okBot, 7⟩
    ⟨HttpOutcome.response 200 okBody, okBot, 7⟩ statusMsg
    (BotState.mk (JVal.jnum 1700000100) statusMsg "")
    ⟨okBody, hwRecord, [], rfl, rfl, rfl⟩ ⟨okBody, hwRecord, [], rfl, rfl, rfl⟩
    rfl rfl
